import Mathlib

/-!
Shallow embedding of the macluhan asynchronous signal source
(`src/linux/tokio.rs`), a tokio-driven wrapper around a Linux signalfd.

The async control flow is embedded by making the environment explicit: each
awaited readiness event, together with the outcome of the non-blocking read
attempted under it, is one element of an event list that the loop consumes.
Running out of events models a loop that is still suspended (no result yet),
so the loop functions return `Option (Except IoError Signal)`.

Pieces of the crate that are not present under `src/` (the synchronous
`linux.rs` module and the `heveanly` descriptor wrapper) are modelled from the
spec; each such definition carries a doc comment saying so.
-/

/-- A signal identity: the OS signal number (`type Signal` from `linux.rs`,
carried here as the value of the `ssi_signo : u32` field). -/
abbrev Signal := Nat

/-- A raw file descriptor (`heveanly::Fd` wraps one). -/
abbrev Fd := Int

/-- `libc::SIGINT`. -/
def SIGINT : Signal := 2

/-- `heveanly::errno::EAGAIN` (the would-block errno on Linux). -/
def EAGAIN : Nat := 11

/-- `size_of::<libc::signalfd_siginfo>()`: the fixed size in bytes of one
kernel signal record. -/
def SIGINFO_SIZE : Nat := 128

/-- Errors surfaced through `io::Result`: `io::ErrorKind::InvalidData.into()`,
an OS errno converted via `ec.into()`, or an abstract error produced by the
reactor (`AsyncFd::new` / `readable()` failures). -/
inductive IoError where
  | invalidData
  | os (errno : Nat)
  | other (tag : Nat)
deriving DecidableEq, Repr

/-- Outcome of the non-blocking `read` on the signal-delivery descriptor:
either `Ok(len)` where the buffer now holds a record whose signal-number field
is `ssi_signo`, or `Err` with an errno. -/
inductive ReadRes where
  | ok (len : Nat) (ssi_signo : Nat)
  | err (errno : Nat)
deriving DecidableEq, Repr

deriving instance DecidableEq for Except

/-- Result of one `read_sigfd` call: the value it returns (`none` means
"retry"), plus whether it called `clear_ready()` on the guard. -/
structure ReadOutcome where
  result : Option (Except IoError Signal)
  cleared : Bool
deriving DecidableEq, Repr

/-- `read_sigfd` (tokio.rs lines 12-27): reads one record from the
signal-delivery descriptor under a readiness guard. A full-size read yields
the record's signal number; any other byte count is `InvalidData`; `EAGAIN`
clears readiness and asks the caller to retry; any other errno is returned. -/
def read_sigfd (r : ReadRes) : ReadOutcome :=
  match r with
  | .ok len signo =>
    ⟨some (if len = SIGINFO_SIZE then .ok signo else .error .invalidData), false⟩
  | .err ec =>
    if ec = EAGAIN then ⟨none, true⟩ else ⟨some (.error (.os ec)), false⟩

/-- One environment event for the single-source loop: `sigfd.readable().await`
either fails, or succeeds and the subsequent read gives `r`. -/
inductive SigfdEvent where
  | readyErr (e : IoError)
  | ready (r : ReadRes)
deriving DecidableEq, Repr

/-- `next` (tokio.rs lines 29-37): the single-source wait loop. Waits for the
signal-delivery descriptor, reads, and loops on a would-block retry. `none`
means the event list ran out while the loop was still suspended. -/
def next (sigfd : Fd) : List SigfdEvent → Option (Except IoError Signal)
  | [] => none
  | .readyErr e :: _ => some (.error e)
  | .ready r :: rest =>
    match (read_sigfd r).result with
    | some res => some res
    | none => next sigfd rest

/-- Outcome of the fixed-size (8-byte buffer) non-blocking `read` on the
interrupt-override eventfd. -/
inductive EfdRes where
  | ok (len : Nat)
  | err (errno : Nat)
deriving DecidableEq, Repr

/-- The interrupt-override read step (tokio.rs lines 45-52): any successful
read returns `SIGINT` directly; `EAGAIN` clears readiness and retries; any
other errno is returned. -/
def sigint_read (r : EfdRes) : ReadOutcome :=
  match r with
  | .ok _ => ⟨some (.ok SIGINT), false⟩
  | .err ec =>
    if ec = EAGAIN then ⟨none, true⟩ else ⟨some (.error (.os ec)), false⟩

/-- One environment event for the dual-source race loop: `select!` resolves
whichever descriptor became ready first; the event records which branch fired
and the outcome of its readiness wait and read. -/
inductive RaceEvent where
  | intReadyErr (e : IoError)
  | intReady (r : EfdRes)
  | sigReadyErr (e : IoError)
  | sigReady (r : ReadRes)
deriving DecidableEq, Repr

/-- `next_with_sigint` (tokio.rs lines 39-60): the dual-source race loop.
Races the interrupt-override descriptor against the signal-delivery
descriptor; services whichever fired; retries on would-block in either
branch. -/
def next_with_sigint (sigint_efd sigfd : Fd) :
    List RaceEvent → Option (Except IoError Signal)
  | [] => none
  | .intReadyErr e :: _ => some (.error e)
  | .intReady r :: rest =>
    match (sigint_read r).result with
    | some res => some res
    | none => next_with_sigint sigint_efd sigfd rest
  | .sigReadyErr e :: _ => some (.error e)
  | .sigReady r :: rest =>
    match (read_sigfd r).result with
    | some res => some res
    | none => next_with_sigint sigint_efd sigfd rest

/-- Modelled from the spec: the pre-registration handle `super::Signals` from
`linux.rs`, which is absent from `src/`. It holds the raw signal-delivery
descriptor and the raw interrupt-override descriptor, the latter encoded as a
negative value when absent (tokio.rs line 101 tests `sigint_efd < 0`). -/
structure RawSignals where
  sigfd : Fd
  sigint_efd : Int
deriving DecidableEq, Repr

/-- `Era` (tokio.rs lines 62-65): the lifecycle sum type. `bc` holds the
pre-registration handle; `ad` holds the descriptors wrapped in `AsyncFd` for
reactor-driven polling. -/
inductive Era where
  | bc (s : RawSignals)
  | ad (sigint_efd : Option Fd) (sigfd : Fd)
deriving DecidableEq, Repr

/-- `Signals` (tokio.rs lines 71-73): the asynchronous signal source; owns
exactly one `Era`. -/
structure Signals where
  era : Era
deriving DecidableEq, Repr

/-- The environment one `next()` call runs against: whether each
`AsyncFd::new` wrap fails (`some e`) or succeeds (`none`), and the readiness
events consumed by whichever loop runs. -/
structure InitEnv where
  wrapSigfd : Option IoError
  wrapEfd : Option IoError
  sfEvents : List SigfdEvent
  raceEvents : List RaceEvent

/-- `Signals::init_and_next` (tokio.rs lines 99-109): wraps the raw
descriptor(s) in `AsyncFd` (a wrap failure returns the error early via `?`,
leaving `era` unchanged), runs the first wait-and-read cycle, and only once
that cycle has produced a result assigns `era := Era::Ad`, returning the
cycle's result. A `none` loop result models the cycle still suspended: no
assignment has happened yet. -/
def Signals.init_and_next (self : Signals) (sigfd : Fd) (sigint_efd : Int)
    (env : InitEnv) : Signals × Option (Except IoError Signal) :=
  match env.wrapSigfd with
  | some e => (self, some (.error e))
  | none =>
    if sigint_efd < 0 then
      match next sigfd env.sfEvents with
      | none => (self, none)
      | some r => (⟨.ad none sigfd⟩, some r)
    else
      match env.wrapEfd with
      | some e => (self, some (.error e))
      | none =>
        match next_with_sigint sigint_efd sigfd env.raceEvents with
        | none => (self, none)
        | some r => (⟨.ad (some sigint_efd) sigfd⟩, some r)

/-- Alias for the free loop function `next`, needed because inside the
`Signals` namespace the bare name would resolve to the method itself. -/
def nextSigfdLoop (sigfd : Fd) (evs : List SigfdEvent) :
    Option (Except IoError Signal) :=
  next sigfd evs

/-- `Signals::next` (tokio.rs lines 113-121): dispatch on the era. In `bc`,
upgrade via `init_and_next`; in `ad`, run the matching wait loop with the era
unchanged. -/
def Signals.next (self : Signals) (env : InitEnv) :
    Signals × Option (Except IoError Signal) :=
  match self.era with
  | .bc s => self.init_and_next s.sigfd s.sigint_efd env
  | .ad none sigfd => (self, nextSigfdLoop sigfd env.sfEvents)
  | .ad (some sigint_efd) sigfd =>
    (self, next_with_sigint sigint_efd sigfd env.raceEvents)

/-- Iterate `Signals.next` over a sequence of call environments, tracking only
the resulting state. -/
def runNexts : Signals → List InitEnv → Signals
  | s, [] => s
  | s, env :: rest => runNexts (s.next env).1 rest

/-- `Drop for Signals` (tokio.rs lines 124-130): in the `ad` era the
signal-delivery descriptor is closed explicitly, its result discarded
(`let _ = sigfd.get_ref().close()`); nothing is closed explicitly in `bc`. -/
def Signals.dropExplicitCloses (self : Signals) : List Fd :=
  match self.era with
  | .bc _ => []
  | .ad _ sigfd => [sigfd]

/-- Modelled from the spec: descriptors released by dropping the
pre-registration handle (`linux.rs`, absent from `src/`). Per spec section 4.4
a never-polled source's owned raw descriptors are each released exactly once
by the component that constructed them. -/
def rawDropCloses (s : RawSignals) : List Fd :=
  if s.sigint_efd < 0 then [s.sigfd] else [s.sigfd, s.sigint_efd]

/-- Modelled from the spec: closes performed by the dropped fields' own
ownership wrappers (`heveanly::Fd`, absent from `src/`). Per spec section 4.4
the interrupt-override descriptor, if present, is closed by its own ownership
wrapper; in `bc` the pre-registration handle releases its raw descriptors; the
explicit close in `Drop for Signals` leaves nothing further for the
signal-delivery descriptor. -/
def Signals.fieldDropCloses (self : Signals) : List Fd :=
  match self.era with
  | .bc s => rawDropCloses s
  | .ad none _ => []
  | .ad (some efd) _ => [efd]

/-- All close operations performed when a `Signals` is dropped: the explicit
`Drop` body runs first, then the fields' own drops. -/
def Signals.dropCloses (self : Signals) : List Fd :=
  self.dropExplicitCloses ++ self.fieldDropCloses

/-- The descriptors a source owns in each lifecycle state (spec section 3:
pre-registration holds the raw descriptors; live registration holds the same
descriptors wrapped for polling). -/
def ownedFds (self : Signals) : List Fd :=
  match self.era with
  | .bc s => if s.sigint_efd < 0 then [s.sigfd] else [s.sigfd, s.sigint_efd]
  | .ad none sigfd => [sigfd]
  | .ad (some efd) sigfd => [sigfd, efd]

/-- A set of signal numbers handed to a constructor (`libc::sigset_t`,
abstracted as the list of signals it blocks). -/
abbrev Sigset := List Signal

/-- Modelled from the spec: `super::Signals::from_sigset` (`linux.rs`, absent
from `src/`) blocks the requested signals and creates the raw descriptors; the
raw interrupt-override descriptor exists only when the preset includes the
interrupt signal (spec section 6). Concrete descriptor numbers are abstracted
as fixed values. -/
def RawSignals.from_sigset (sigs : Sigset) : RawSignals :=
  ⟨3, if SIGINT ∈ sigs then 4 else -1⟩

/-- Result of running a preset factory: either the construction aborted with
the construction-before-runtime panic, or it produced a source. -/
inductive ConstructResult where
  | aborted
  | made (s : Signals)
deriving DecidableEq, Repr

/-- `Signals::from_sigset` (tokio.rs lines 76-81): if a Tokio runtime handle
is already current, panic (modelled as `aborted`); otherwise produce a source
in the `bc` era around the raw handle. -/
def Signals.from_sigset (runtimeRunning : Bool) (sigs : Sigset) : ConstructResult :=
  if runtimeRunning then .aborted
  else .made ⟨.bc (RawSignals.from_sigset sigs)⟩

/-- Modelled from the spec: the canonical preset signal sets of `linux.rs`
(absent from `src/`). Exact membership is policy owned by that collaborator
(spec sections 6 and 9) and is irrelevant to every claim here; fixed
representative lists are used. -/
def sigsetAll : Sigset := [1, SIGINT, 15, 17]

/-- Modelled from the spec: the fatal-by-default preset membership, abstracted
as a fixed representative list (see `sigsetAll`). -/
def sigsetDeadly : Sigset := [SIGINT, 15]

/-- Modelled from the spec: the non-fatal-by-default preset membership,
abstracted as a fixed representative list (see `sigsetAll`). -/
def sigsetBenign : Sigset := [17]

/-- Modelled from the spec: `signals_new` from `linux.rs` (absent from
`src/`) builds the sigset for an explicit signal list and invokes the supplied
constructor on it (spec section 6). -/
def signals_new (sigs : List Signal) (f : Sigset → ConstructResult) :
    ConstructResult :=
  f sigs

/-- Modelled from the spec: `signals_all` from `linux.rs` (absent from
`src/`), as `signals_new` but over the full preset catalog. -/
def signals_all (f : Sigset → ConstructResult) : ConstructResult :=
  f sigsetAll

/-- Modelled from the spec: `signals_deadly` from `linux.rs` (absent from
`src/`), as `signals_new` but over the fatal-by-default preset. -/
def signals_deadly (f : Sigset → ConstructResult) : ConstructResult :=
  f sigsetDeadly

/-- Modelled from the spec: `signals_benign` from `linux.rs` (absent from
`src/`), as `signals_new` but over the non-fatal-by-default preset. -/
def signals_benign (f : Sigset → ConstructResult) : ConstructResult :=
  f sigsetBenign

/-- `Signals::new` (tokio.rs lines 83-85). -/
def Signals.new (runtimeRunning : Bool) (sigs : List Signal) : ConstructResult :=
  signals_new sigs (Signals.from_sigset runtimeRunning)

/-- `Signals::all` (tokio.rs lines 87-89). -/
def Signals.all (runtimeRunning : Bool) : ConstructResult :=
  signals_all (Signals.from_sigset runtimeRunning)

/-- `Signals::deadly` (tokio.rs lines 91-93). -/
def Signals.deadly (runtimeRunning : Bool) : ConstructResult :=
  signals_deadly (Signals.from_sigset runtimeRunning)

/-- `Signals::benign` (tokio.rs lines 95-97). -/
def Signals.benign (runtimeRunning : Bool) : ConstructResult :=
  signals_benign (Signals.from_sigset runtimeRunning)

/-- A call environment in which both wraps succeed and the single-source loop
immediately reads a full record carrying signal 15. -/
def envSingleOk : InitEnv := ⟨none, none, [SigfdEvent.ready (.ok 128 15)], []⟩

/-- A call environment in which both wraps succeed and the dual-source race is
won by the interrupt-override descriptor with a successful 8-byte read. -/
def envDualOk : InitEnv := ⟨none, none, [], [RaceEvent.intReady (.ok 8)]⟩

/-- A call environment in which wrapping the signal-delivery descriptor
fails. -/
def envWrapFail : InitEnv := ⟨some (.other 0), none, [], []⟩

/-- A call environment in which wrapping the interrupt-override descriptor
fails. -/
def envEfdWrapFail : InitEnv := ⟨none, some (.other 1), [], []⟩

/-- A call environment in which the wraps succeed but no readiness event ever
arrives: the first wait-and-read cycle stays suspended. -/
def envStall : InitEnv := ⟨none, none, [], []⟩

example : next 3 [SigfdEvent.ready (.ok 128 15)] = some (.ok 15) := rfl

example : next 3 [SigfdEvent.ready (.ok 16 15)] = some (.error .invalidData) := rfl

example :
    next 3 [SigfdEvent.ready (.err EAGAIN), SigfdEvent.ready (.ok 128 9)] =
      some (.ok 9) := rfl

example :
    next_with_sigint 4 3 [RaceEvent.intReady (.ok 8)] = some (.ok SIGINT) := rfl

/-- C1: the first `next()` call on a pre-registration source wraps the raw
descriptor(s), performs the first wait-and-read cycle, and leaves the source
in the `ad` (Active) era — on both the single-source and the dual-source
shape — and from the `ad` era no sequence of later `next()` calls ever returns
the source to the `bc` (pre-registration) era. -/
theorem c1_lifecycle_transition :
    (∀ (raw : RawSignals) (env : InitEnv) (r : Except IoError Signal),
      env.wrapSigfd = none → raw.sigint_efd < 0 →
      next raw.sigfd env.sfEvents = some r →
      Signals.next ⟨.bc raw⟩ env = (⟨.ad none raw.sigfd⟩, some r)) ∧
    (∀ (raw : RawSignals) (env : InitEnv) (r : Except IoError Signal),
      env.wrapSigfd = none → ¬ raw.sigint_efd < 0 → env.wrapEfd = none →
      next_with_sigint raw.sigint_efd raw.sigfd env.raceEvents = some r →
      Signals.next ⟨.bc raw⟩ env = (⟨.ad (some raw.sigint_efd) raw.sigfd⟩, some r)) ∧
    (∀ (o : Option Fd) (f : Fd) (envs : List InitEnv),
      runNexts ⟨.ad o f⟩ envs = ⟨.ad o f⟩) := by
  refine ⟨?_, ?_, ?_⟩
  · intro raw env r h1 h2 h3
    simp [Signals.next, Signals.init_and_next, h1, h2, h3]
  · intro raw env r h1 h2 h3 h4
    simp [Signals.next, Signals.init_and_next, h1, h2, h3, h4]
  · intro o f envs
    induction envs with
    | nil => rfl
    | cons env rest ih => cases o <;> simpa [runNexts, Signals.next] using ih

/-- Witness for C1 at concrete inputs. -/
theorem c1_lifecycle_transition_witness :
    Signals.next ⟨.bc ⟨3, -1⟩⟩ envSingleOk = (⟨.ad none 3⟩, some (.ok 15)) ∧
    Signals.next ⟨.bc ⟨3, 4⟩⟩ envDualOk = (⟨.ad (some 4) 3⟩, some (.ok SIGINT)) ∧
    runNexts ⟨.ad none 3⟩ [envSingleOk, envDualOk] = ⟨.ad none 3⟩ :=
  ⟨c1_lifecycle_transition.1 ⟨3, -1⟩ envSingleOk (.ok 15) rfl (by decide) rfl,
   c1_lifecycle_transition.2.1 ⟨3, 4⟩ envDualOk (.ok SIGINT) rfl (by decide) rfl rfl,
   c1_lifecycle_transition.2.2 none 3 [envSingleOk, envDualOk]⟩

/-- C2: a read of the signal-delivery descriptor returning a byte count other
than the kernel record size makes `read_sigfd` yield an invalid-data error,
which `next` returns at once regardless of any later events (no retry). -/
theorem c2_short_read_invalid_data (len signo : Nat) (h : len ≠ SIGINFO_SIZE) :
    (read_sigfd (.ok len signo)).result = some (.error .invalidData) ∧
    ∀ (sigfd : Fd) (rest : List SigfdEvent),
      next sigfd (.ready (.ok len signo) :: rest) = some (.error .invalidData) := by
  constructor
  · simp [read_sigfd, h]
  · intro sigfd rest
    simp [next, read_sigfd, h]

/-- Witness for C2 at a 16-byte short read. -/
theorem c2_short_read_invalid_data_witness :
    (read_sigfd (.ok 16 9)).result = some (.error .invalidData) ∧
    next 3 [SigfdEvent.ready (.ok 16 9)] = some (.error .invalidData) :=
  ⟨(c2_short_read_invalid_data 16 9 (by decide)).1,
   (c2_short_read_invalid_data 16 9 (by decide)).2 3 []⟩

/-- C3: a read returning exactly one full kernel record makes `next` return
`Ok` of the record's signal-number field, and every `Ok` returned by `next`
arises from a complete-record read event carrying that very signal number. -/
theorem c3_full_read_ok :
    (∀ signo : Nat,
      (read_sigfd (.ok SIGINFO_SIZE signo)).result = some (.ok signo)) ∧
    (∀ (sigfd : Fd) (signo : Nat) (rest : List SigfdEvent),
      next sigfd (.ready (.ok SIGINFO_SIZE signo) :: rest) = some (.ok signo)) ∧
    (∀ (sigfd : Fd) (evs : List SigfdEvent) (s : Signal),
      next sigfd evs = some (.ok s) →
      SigfdEvent.ready (.ok SIGINFO_SIZE s) ∈ evs) := by
  refine ⟨fun signo => by simp [read_sigfd], fun sigfd signo rest => by
    simp [next, read_sigfd], ?_⟩
  intro sigfd evs s
  induction evs with
  | nil => intro h; simp [next] at h
  | cons e rest ih =>
    intro h
    cases e with
    | readyErr err => simp [next] at h
    | ready r =>
      cases r with
      | ok len signo =>
        by_cases hl : len = SIGINFO_SIZE
        · subst hl
          simp [next, read_sigfd] at h
          subst h
          exact List.mem_cons_self _ _
        · simp [next, read_sigfd, hl] at h
      | err ec =>
        by_cases he : ec = EAGAIN
        · subst he
          simp only [next, read_sigfd, if_pos rfl] at h
          exact List.mem_cons_of_mem _ (ih h)
        · simp [next, read_sigfd, he] at h

/-- Witness for C3 at a full-record read of signal 15. -/
theorem c3_full_read_ok_witness :
    (read_sigfd (.ok SIGINFO_SIZE 15)).result = some (.ok 15) ∧
    SigfdEvent.ready (.ok SIGINFO_SIZE 15) ∈ [SigfdEvent.ready (.ok 128 15)] :=
  ⟨c3_full_read_ok.1 15,
   c3_full_read_ok.2.2 3 [SigfdEvent.ready (.ok 128 15)] 15 rfl⟩

/-- C4: a would-block read clears the readiness flag and yields no result, and
both loops continue exactly as if the would-block event had never happened —
on the signal-delivery path and on both branches of the dual-source race. -/
theorem c4_would_block_transparent :
    read_sigfd (.err EAGAIN) = ⟨none, true⟩ ∧
    sigint_read (.err EAGAIN) = ⟨none, true⟩ ∧
    (∀ (sigfd : Fd) (rest : List SigfdEvent),
      next sigfd (.ready (.err EAGAIN) :: rest) = next sigfd rest) ∧
    (∀ (a b : Fd) (rest : List RaceEvent),
      next_with_sigint a b (.intReady (.err EAGAIN) :: rest) =
        next_with_sigint a b rest) ∧
    (∀ (a b : Fd) (rest : List RaceEvent),
      next_with_sigint a b (.sigReady (.err EAGAIN) :: rest) =
        next_with_sigint a b rest) :=
  ⟨rfl, rfl, fun _ _ => rfl, fun _ _ _ => rfl, fun _ _ _ => rfl⟩

/-- C5: when the interrupt-override descriptor wins the race and its read
succeeds, the loop returns `Ok SIGINT` directly, whatever the byte count; when
that read fails with a hard (non-would-block) errno, the loop returns that
error. -/
theorem c5_override_race (ec : Nat) (h : ec ≠ EAGAIN) :
    (∀ (a b : Fd) (len : Nat) (rest : List RaceEvent),
      next_with_sigint a b (.intReady (.ok len) :: rest) = some (.ok SIGINT)) ∧
    (∀ (a b : Fd) (rest : List RaceEvent),
      next_with_sigint a b (.intReady (.err ec) :: rest) =
        some (.error (.os ec))) := by
  constructor
  · intro a b len rest
    rfl
  · intro a b rest
    simp [next_with_sigint, sigint_read, h]

/-- Witness for C5 at a successful 8-byte read and at errno 5. -/
theorem c5_override_race_witness :
    next_with_sigint 4 3 [RaceEvent.intReady (.ok 8)] = some (.ok SIGINT) ∧
    next_with_sigint 4 3 [RaceEvent.intReady (.err 5)] = some (.error (.os 5)) :=
  ⟨(c5_override_race 5 (by decide)).1 4 3 8 [],
   (c5_override_race 5 (by decide)).2 4 3 []⟩

/-- C6: each of the four preset factories, invoked while a Tokio runtime is
already current, aborts with the construction-before-runtime panic and
produces no registration. -/
theorem c6_construct_during_runtime_aborts :
    (∀ sigs : List Signal, Signals.new true sigs = .aborted) ∧
    Signals.all true = .aborted ∧
    Signals.deadly true = .aborted ∧
    Signals.benign true = .aborted :=
  ⟨fun _ => rfl, rfl, rfl, rfl⟩

/-- C7: a read of the signal-delivery descriptor failing with any errno other
than would-block makes `next` return that errno as an I/O failure at once,
regardless of any later events (no internal retry). -/
theorem c7_hard_error_propagates (ec : Nat) (h : ec ≠ EAGAIN) :
    (read_sigfd (.err ec)).result = some (.error (.os ec)) ∧
    ∀ (sigfd : Fd) (rest : List SigfdEvent),
      next sigfd (.ready (.err ec) :: rest) = some (.error (.os ec)) := by
  constructor
  · simp [read_sigfd, h]
  · intro sigfd rest
    simp [next, read_sigfd, h]

/-- Witness for C7 at errno 5 (EIO). -/
theorem c7_hard_error_propagates_witness :
    (read_sigfd (.err 5)).result = some (.error (.os 5)) ∧
    next 3 [SigfdEvent.ready (.err 5)] = some (.error (.os 5)) :=
  ⟨(c7_hard_error_propagates 5 (by decide)).1,
   (c7_hard_error_propagates 5 (by decide)).2 3 []⟩

/-- C8: dropping a source closes exactly the descriptors it owns — in the
Active era the signal-delivery descriptor once via the explicit `Drop` body
and the interrupt-override descriptor, if present, once via its own ownership
wrapper; in the pre-registration era the raw descriptors once each — so each
owned descriptor is closed exactly once and none is leaked. -/
theorem c8_teardown_closes_once (self : Signals) (h : (ownedFds self).Nodup) :
    Signals.dropCloses self = ownedFds self ∧
    ∀ fd ∈ ownedFds self, (Signals.dropCloses self).count fd = 1 := by
  have heq : Signals.dropCloses self = ownedFds self := by
    rcases self with ⟨era⟩
    cases era with
    | bc s =>
      simp [Signals.dropCloses, Signals.dropExplicitCloses,
        Signals.fieldDropCloses, ownedFds, rawDropCloses]
    | ad o f => cases o <;> rfl
  refine ⟨heq, ?_⟩
  intro fd hfd
  rw [heq]
  exact List.count_eq_one_of_mem h hfd

/-- Witness for C8 on an Active-era source holding descriptors 3 and 4. -/
theorem c8_teardown_closes_once_witness :
    Signals.dropCloses ⟨.ad (some 4) 3⟩ = ownedFds ⟨.ad (some 4) 3⟩ ∧
    (Signals.dropCloses ⟨.ad (some 4) 3⟩).count 3 = 1 :=
  ⟨(c8_teardown_closes_once ⟨.ad (some 4) 3⟩ (by decide)).1,
   (c8_teardown_closes_once ⟨.ad (some 4) 3⟩ (by decide)).2 3 (by decide)⟩

/-- C9: the override-path read's byte count is never inspected — any
successful read, of any length, yields `Ok SIGINT` — and the override read
step only ever yields `Ok SIGINT`, a silent retry, or an OS errno, never the
invalid-data outcome of the signal-delivery decoder. -/
theorem c9_override_length_unchecked :
    (∀ len : Nat, (sigint_read (.ok len)).result = some (.ok SIGINT)) ∧
    (∀ (a b : Fd) (len : Nat) (rest : List RaceEvent),
      next_with_sigint a b (.intReady (.ok len) :: rest) = some (.ok SIGINT)) ∧
    (∀ r : EfdRes,
      (sigint_read r).result = some (.ok SIGINT) ∨
      sigint_read r = ⟨none, true⟩ ∨
      ∃ ec : Nat, (sigint_read r).result = some (.error (.os ec))) := by
  refine ⟨fun _ => rfl, fun _ _ _ _ => rfl, ?_⟩
  intro r
  cases r with
  | ok len => exact Or.inl rfl
  | err ec =>
    by_cases he : ec = EAGAIN
    · subst he
      exact Or.inr (Or.inl rfl)
    · exact Or.inr (Or.inr ⟨ec, by simp [sigint_read, he]⟩)

/-- C10: a failure to wrap either raw descriptor during the first `next()`
call leaves the era unchanged in the pre-registration state and returns the
error (so the next call dispatches through the whole upgrade again), and the
era is assigned to Active only in calls whose first wait-and-read cycle
completed: if the cycle produced no result, the state is unchanged. -/
theorem c10_wrap_failure_leaves_preinit :
    (∀ (raw : RawSignals) (env : InitEnv) (e : IoError),
      env.wrapSigfd = some e →
      Signals.next ⟨.bc raw⟩ env = (⟨.bc raw⟩, some (.error e))) ∧
    (∀ (raw : RawSignals) (env : InitEnv) (e : IoError),
      env.wrapSigfd = none → ¬ raw.sigint_efd < 0 → env.wrapEfd = some e →
      Signals.next ⟨.bc raw⟩ env = (⟨.bc raw⟩, some (.error e))) ∧
    (∀ (raw : RawSignals) (env : InitEnv),
      (Signals.next ⟨.bc raw⟩ env).2 = none →
      (Signals.next ⟨.bc raw⟩ env).1 = ⟨.bc raw⟩) := by
  refine ⟨?_, ?_, ?_⟩
  · intro raw env e h1
    simp [Signals.next, Signals.init_and_next, h1]
  · intro raw env e h1 h2 h3
    simp [Signals.next, Signals.init_and_next, h1, h2, h3]
  · intro raw env h
    cases hw : env.wrapSigfd with
    | some e => simp [Signals.next, Signals.init_and_next, hw] at h
    | none =>
      by_cases hs : raw.sigint_efd < 0
      · cases hl : next raw.sigfd env.sfEvents with
        | none => simp [Signals.next, Signals.init_and_next, hw, hs, hl]
        | some res => simp [Signals.next, Signals.init_and_next, hw, hs, hl] at h
      · cases hwe : env.wrapEfd with
        | some e => simp [Signals.next, Signals.init_and_next, hw, hs, hwe]
        | none =>
          cases hl : next_with_sigint raw.sigint_efd raw.sigfd env.raceEvents with
          | none =>
            simp [Signals.next, Signals.init_and_next, hw, hs, hwe, hl]
          | some res =>
            simp [Signals.next, Signals.init_and_next, hw, hs, hwe, hl] at h

/-- Witness for C10 at a failed sigfd wrap, a failed efd wrap, and a stalled
first cycle. -/
theorem c10_wrap_failure_leaves_preinit_witness :
    Signals.next ⟨.bc ⟨3, -1⟩⟩ envWrapFail =
      (⟨.bc ⟨3, -1⟩⟩, some (.error (.other 0))) ∧
    Signals.next ⟨.bc ⟨3, 4⟩⟩ envEfdWrapFail =
      (⟨.bc ⟨3, 4⟩⟩, some (.error (.other 1))) ∧
    (Signals.next ⟨.bc ⟨3, -1⟩⟩ envStall).1 = ⟨.bc ⟨3, -1⟩⟩ :=
  ⟨c10_wrap_failure_leaves_preinit.1 ⟨3, -1⟩ envWrapFail (.other 0) rfl,
   c10_wrap_failure_leaves_preinit.2.1 ⟨3, 4⟩ envEfdWrapFail (.other 1) rfl
     (by decide) rfl,
   c10_wrap_failure_leaves_preinit.2.2 ⟨3, -1⟩ envStall rfl⟩
